import Mathlib

/-!
Verification of the gliderblog authentication and credential-lifecycle
subsystem.

The development shallowly embeds the Python sources:

* `src/security.py` — `DeviceSecurity.prepare_password`, `hash_password`,
  `verify_password`.  These call two external libraries, `hashlib` (SHA-256)
  and `bcrypt`; the libraries are not part of this repository, so they are
  modelled by executable stand-ins that reproduce their interface behaviour
  (determinism, fixed-length hexdigest output, bcrypt's 72-byte truncation,
  its self-describing `$2b$cc$<22 salt chars><31 hash chars>` encoding, and
  the `ValueError` that `bcrypt.checkpw` raises when the stored value does
  not parse as a bcrypt hash — modelled as `Except.error`).

* `src/myweb.py` — the endpoint handlers `register_submit`, `login_submit`,
  `verify_account`, `forgot_password_submit`, `reset_password_submit`, and
  the cookie guards `get_current_user` / `get_admin_user`.  The MySQL
  `login` table is a `List UserRec`; `SELECT ... WHERE c=%s ... fetchone()`
  is `List.find?`, and `UPDATE ... WHERE c=%s` is a `List.map` that rewrites
  every matching row.  `secrets.token_urlsafe(32)` and `bcrypt.gensalt()`
  are nondeterministic inputs, passed as explicit arguments.  Background
  e-mail dispatch is recorded in the result value instead of performed.
-/

/-! ## Model of the external bcrypt and hashlib libraries -/

/-- The radix-64 alphabet bcrypt uses for its salt/hash encoding. -/
def bcryptB64 : List Char :=
  "./ABCDEFGHIJKLMNOPQRSTUVWXYZabcdefghijklmnopqrstuvwxyz0123456789".data

/-- UTF-8 bytes of a string, as natural numbers (Python `s.encode("utf-8")`). -/
def utf8Bytes (s : String) : List Nat :=
  (s.data.flatMap (fun c => String.utf8EncodeChar c)).map (fun b => b.toNat)

/-- Model of the external `hashlib.sha256(input).hexdigest()`: a
deterministic stand-in that maps an arbitrary-length byte sequence to 64
lowercase hexadecimal characters.  The real compression function is external
to this repository; every property proved below uses only determinism and
the fixed 64-character output length, which the stand-in shares with the
real function. -/
def sha256HexModel (input : List Nat) : List Char :=
  let d : Nat :=
    input.foldl (fun a b => (a * 65599 + b + 257) % 2 ^ 256)
      ((input.length + 1) % 2 ^ 256)
  (List.range 64).map (fun i => Nat.digitChar (d / 16 ^ i % 16))

/-- Value of an ASCII decimal digit character, `none` for anything else. -/
def digitVal? (c : Char) : Option Nat :=
  if '0' ≤ c ∧ c ≤ '9' then some (c.toNat - '0'.toNat) else none

/-- A salt as produced by `bcrypt.gensalt()`: a cost factor in 4..31 and 22
radix-64 characters.  `gensalt` output is well formed by construction, which
the invariant fields record. -/
structure BcryptSalt where
  cost : Nat
  chars : List Char
  costLo : 4 ≤ cost
  costHi : cost ≤ 31
  charsLen : chars.length = 22

/-- The 29-character salt string `$2b$cc$<22 chars>` that `bcrypt.gensalt()`
returns and that prefixes every bcrypt hash. -/
def encodeSaltRaw (cost : Nat) (chars : List Char) : List Char :=
  '$' :: '2' :: 'b' :: '$' ::
    Nat.digitChar (cost / 10) :: Nat.digitChar (cost % 10) :: '$' :: chars

/-- Model of bcrypt's salt parser: accepts `$2b$cc$` followed by at least 22
characters (a bare salt or a full 60-character hash), yielding the cost and
the 22 salt characters; anything else is rejected (the library raises
`ValueError: Invalid salt`). -/
def parseSalt : List Char → Option (Nat × List Char)
  | '$' :: '2' :: 'b' :: '$' :: c1 :: c2 :: '$' :: rest =>
    match digitVal? c1, digitVal? c2 with
    | some d1, some d2 =>
      let cost := d1 * 10 + d2
      if 4 ≤ cost ∧ cost ≤ 31 ∧ 22 ≤ rest.length then
        some (cost, rest.take 22)
      else none
    | _, _ => none
  | _ => none

/-- Deterministic stand-in for bcrypt's EksBlowfish key-derivation, a
function of the (already truncated) password bytes, the cost and the salt
characters.  The real derivation is external to this repository; the
properties proved below use only that it is a deterministic function of
exactly these inputs. -/
def bcryptMixModel (key : List Nat) (cost : Nat) (saltChars : List Char) : Nat :=
  key.foldl (fun a b => (a * 65599 + b + 1) % 2 ^ 192)
    (saltChars.foldl (fun a c => (a * 131 + c.toNat + 1) % 2 ^ 192) (cost + 1))

/-- The 31-character radix-64 rendering of the derived hash value. -/
def encodeHash31 (n : Nat) : List Char :=
  (List.range 31).map (fun i => bcryptB64.getD (n / 64 ^ i % 64) '.')

/-- Model of `bcrypt.hashpw(password, salt)`: parses the salt string (error
on malformed input, as the library raises `ValueError`), truncates the
password to 72 bytes, and returns the 60-character hash
`<29-char salt prefix><31 hash chars>`. -/
def bcryptHashpw (password : List Nat) (salt : List Char) :
    Except Unit (List Char) :=
  match parseSalt salt with
  | none => Except.error ()
  | some (cost, saltChars) =>
    Except.ok (encodeSaltRaw cost saltChars ++
      encodeHash31 (bcryptMixModel (password.take 72) cost saltChars))

/-- Model of `bcrypt.checkpw(password, hashed)`: recomputes
`hashpw(password, hashed)` — the stored hash doubles as the salt string —
and compares the result with the stored value (the library compares with
`hmac.compare_digest` after a length check).  A malformed stored value makes
`hashpw` raise, and the error propagates. -/
def bcryptCheckpw (password : List Nat) (hashed : List Char) :
    Except Unit Bool :=
  match bcryptHashpw password hashed with
  | Except.error e => Except.error e
  | Except.ok ret => Except.ok (if ret = hashed then true else false)

/-! ## security.py — DeviceSecurity -/

/-- Embeds `DeviceSecurity.prepare_password`: SHA-256 the UTF-8 password and return
the UTF-8 bytes of the hexdigest — always 64 bytes, below bcrypt's 72-byte
limit regardless of the password's length. -/
def prepare_password (password : String) : List Nat :=
  (sha256HexModel (utf8Bytes password)).map Char.toNat

/-- Embeds `DeviceSecurity.hash_password`: bcrypt-hash the prepared password with a
fresh salt (`bcrypt.gensalt()`, here an explicit argument) and decode the
result to a string.  `hashpw` cannot fail on a `gensalt` output, so the
error branch is unreachable (proved in `bcryptHashpw_gensalt`). -/
def hash_password (password : String) (salt : BcryptSalt) : String :=
  match bcryptHashpw (prepare_password password) (encodeSaltRaw salt.cost salt.chars) with
  | Except.ok h => String.mk h
  | Except.error _ => String.mk []

/-- Embeds `DeviceSecurity.verify_password`: check the prepared password against
the stored hash with `bcrypt.checkpw`.  There is no exception handler, so a
`ValueError` from `checkpw` on a malformed stored hash propagates to the
caller (`Except.error`). -/
def verify_password (password : String) (stored : String) : Except Unit Bool :=
  bcryptCheckpw (prepare_password password) stored.data

instance {e a : Type} [DecidableEq e] [DecidableEq a] : DecidableEq (Except e a) :=
fun x y =>
  match x, y with
  | Except.error u, Except.error v =>
    if h : u = v then isTrue (h ▸ rfl)
    else isFalse (fun he => h (Except.error.inj he))
  | Except.ok u, Except.ok v =>
    if h : u = v then isTrue (h ▸ rfl)
    else isFalse (fun he => h (Except.ok.inj he))
  | Except.error _, Except.ok _ => isFalse (fun he => Except.noConfusion he)
  | Except.ok _, Except.error _ => isFalse (fun he => Except.noConfusion he)

/-! ## myweb.py — data model -/

/-- A row of the MySQL `login` table, with the columns the handlers in
`myweb.py` read and write.  `type` is the role column (`0` = admin, `1` =
user); `is_active` is the activation state (`0` = pending, `1` = active);
`email_token` / `reset_token` are NULLable token columns (`none` = SQL
NULL). -/
structure UserRec where
  userId : Nat
  username : String
  email : String
  password : String
  type : Nat
  email_token : Option String
  is_active : Nat
  reset_token : Option String
deriving DecidableEq, Repr

/-- A rendered template response: the template name and the `error` /
`success` strings passed to `templates.TemplateResponse`. -/
structure PageResponse where
  template : String
  error : Option String
  success : Option String
deriving DecidableEq, Repr

/-- Page `login.html` with `error="Invalid credentials"` (login_submit). -/
def invalidCredentialsPage : PageResponse :=
  ⟨"login.html", some "Invalid credentials", none⟩

/-- Page `login.html` with the pending-account error (login_submit). -/
def accountNotActivePage : PageResponse :=
  ⟨"login.html", some "Account not active. Please check your verification email.", none⟩

/-- Page `login.html` with `error="Invalid or expired token."` (verify_account
and reset_password_submit). -/
def invalidTokenPage : PageResponse :=
  ⟨"login.html", some "Invalid or expired token.", none⟩

/-- Page `login.html` with the success message of verify_account. -/
def accountActivatedPage : PageResponse :=
  ⟨"login.html", none, some "Account activated successfully! You can now log in."⟩

/-- Page `login.html` with the success message of reset_password_submit. -/
def passwordUpdatedPage : PageResponse :=
  ⟨"login.html", none, some "Password updated! You can now log in."⟩

/-- Page `register.html` with the uniqueness-conflict error (register_submit). -/
def registerConflictPage : PageResponse :=
  ⟨"register.html", some "Username or Email already taken", none⟩

/-- Page `login.html` with the success message of register_submit. -/
def registrationCompletePage : PageResponse :=
  ⟨"login.html", none, some "Registration complete! Please check your email to activate your account."⟩

/-- Page `forgot_password.html` with the uniform success message that
forgot_password_submit returns whether or not the email exists. -/
def forgotPasswordPage : PageResponse :=
  ⟨"forgot_password.html", none, some "If the email is in our system, you will receive a reset link shortly."⟩

/-! ## myweb.py — endpoint handlers -/

/-- Result of `POST /forgot-password`: the rendered page, the `login` table
afterwards, and the background e-mail task if one was enqueued — its
arguments `(email, username, token)` as passed to `send_reset_email`. -/
structure ForgotResult where
  response : PageResponse
  db : List UserRec
  mail : Option (String × String × String)
deriving DecidableEq, Repr

/-- Embeds `forgot_password_submit(email)`: generate a token (here the explicit
argument `token`), `SELECT username FROM login WHERE email=%s`; if a row is
found, `UPDATE login SET reset_token=%s WHERE email=%s` and enqueue the
reset e-mail; in both cases return the same success page. -/
def forgot_password_submit (email token : String) (db : List UserRec) :
    ForgotResult :=
  match db.find? (fun r => r.email == email) with
  | some user =>
    { response := forgotPasswordPage
      db := db.map (fun r =>
        if r.email == email then { r with reset_token := some token } else r)
      mail := some (email, user.username, token) }
  | none => { response := forgotPasswordPage, db := db, mail := none }

/-- Embeds `reset_password_submit(token, new_password)`: `SELECT UserId FROM login
WHERE reset_token=%s`; if a row is found, hash the new password (the fresh
`bcrypt.gensalt()` is the explicit argument `salt`) and `UPDATE login SET
password=%s, reset_token=NULL WHERE reset_token=%s`; otherwise render the
invalid-token page and leave the table unchanged. -/
def reset_password_submit (token new_password : String) (salt : BcryptSalt)
    (db : List UserRec) : PageResponse × List UserRec :=
  match db.find? (fun r => r.reset_token == some token) with
  | some _ =>
    (passwordUpdatedPage,
      db.map (fun r =>
        if r.reset_token == some token then
          { r with password := hash_password new_password salt,
                   reset_token := none }
        else r))
  | none => (invalidTokenPage, db)

/-- Result of `POST /register`: the rendered page, the `login` table
afterwards, and the activation e-mail task if one was enqueued — its
arguments `(email, username, token)` as passed to
`send_verification_email`. -/
structure RegisterResult where
  response : PageResponse
  db : List UserRec
  mail : Option (String × String × String)
deriving DecidableEq, Repr

/-- Embeds `register_submit(username, email, password)`: `SELECT UserId FROM login
WHERE username=%s OR email=%s`; on a hit return the conflict page with no
insert; otherwise hash the password and `INSERT` a row with `type=1`,
`email_token=token`, `is_active=0` (the store-assigned auto-increment id is
the explicit argument `newId`), then enqueue the activation e-mail. -/
def register_submit (username email password token : String)
    (salt : BcryptSalt) (newId : Nat) (db : List UserRec) : RegisterResult :=
  match db.find? (fun r => r.username == username || r.email == email) with
  | some _ => { response := registerConflictPage, db := db, mail := none }
  | none =>
    { response := registrationCompletePage
      db := db ++ [{ userId := newId, username := username, email := email,
                     password := hash_password password salt, type := 1,
                     email_token := some token, is_active := 0,
                     reset_token := none }]
      mail := some (email, username, token) }

/-- A response of `POST /login`: either a rendered `login.html` page or the
302 redirect to `/welcome` that sets the `user_session` and `user_type`
cookies. -/
inductive LoginAction where
  | page (resp : PageResponse)
  | redirect (url : String) (sessionCookie : String) (typeCookie : String)
deriving DecidableEq, Repr

/-- Embeds `login_submit(username, password)`: `SELECT * FROM login WHERE
username=%s`; on a hit, `verify_password` — whose `ValueError` on a
malformed stored hash would propagate out of the handler (`Except.error`).
On a match, a pending account (`is_active == 0`) gets the not-active page;
an active one gets the redirect with cookies `user_session=username`,
`user_type=str(type)`.  A missing row or failed verification both yield the
same invalid-credentials page. -/
def login_submit (username password : String) (db : List UserRec) :
    Except Unit LoginAction :=
  match db.find? (fun r => r.username == username) with
  | none => Except.ok (LoginAction.page invalidCredentialsPage)
  | some user =>
    match verify_password password user.password with
    | Except.error e => Except.error e
    | Except.ok false => Except.ok (LoginAction.page invalidCredentialsPage)
    | Except.ok true =>
      if user.is_active == 0 then
        Except.ok (LoginAction.page accountNotActivePage)
      else
        Except.ok (LoginAction.redirect "/welcome" user.username
          (toString user.type))

/-- Embeds `verify_account(token)` (`GET /verify/{token}`): `SELECT username FROM
login WHERE email_token=%s`; if a row is found, `UPDATE login SET
is_active=1, email_token=NULL WHERE email_token=%s` and render the success
page; otherwise render the invalid-token page and leave the table
unchanged. -/
def verify_account (token : String) (db : List UserRec) :
    PageResponse × List UserRec :=
  match db.find? (fun r => r.email_token == some token) with
  | some _ =>
    (accountActivatedPage,
      db.map (fun r =>
        if r.email_token == some token then
          { r with is_active := 1, email_token := none }
        else r))
  | none => (invalidTokenPage, db)

/-! ## myweb.py — session guards -/

/-- Outcome of the cookie-based guards: `notAuthenticated` models
`HTTPException(307)` (redirect to `/login`), `forbidden` models
`HTTPException(403)`, and `ok s` is the session value handed to the
route. -/
inductive AuthResult where
  | notAuthenticated
  | forbidden
  | ok (session : String)
deriving DecidableEq, Repr

/-- Embeds `get_current_user(user_session)`: `if not user_session: raise
HTTPException(307)`.  Python falsiness rejects both a missing cookie
(`None`) and an empty-string cookie. -/
def get_current_user (user_session : Option String) : AuthResult :=
  match user_session with
  | none => AuthResult.notAuthenticated
  | some s => if s == "" then AuthResult.notAuthenticated else AuthResult.ok s

/-- Embeds `get_admin_user(user_session, user_type)`: runs `get_current_user`
first (a `Depends`), then `if user_type != "0": raise HTTPException(403)` —
a missing `user_type` cookie (`None != "0"`) is also rejected. -/
def get_admin_user (user_session user_type : Option String) : AuthResult :=
  match get_current_user user_session with
  | AuthResult.ok s =>
    if user_type == some "0" then AuthResult.ok s else AuthResult.forbidden
  | r => r

/-! ## Library lemmas about the bcrypt model -/

theorem digitVal?_digitChar (d : Nat) (h : d < 10) :
    digitVal? (Nat.digitChar d) = some d := by
  interval_cases d <;> rfl

theorem parseSalt_encode (s : BcryptSalt) (extra : List Char) :
    parseSalt (encodeSaltRaw s.cost s.chars ++ extra) = some (s.cost, s.chars) := by
  have h1 : s.cost / 10 < 10 := by have := s.costHi; omega
  have h2 : s.cost % 10 < 10 := Nat.mod_lt _ (by omega)
  show parseSalt ('$' :: '2' :: 'b' :: '$' :: Nat.digitChar (s.cost / 10) ::
      Nat.digitChar (s.cost % 10) :: '$' :: (s.chars ++ extra)) = some (s.cost, s.chars)
  simp only [parseSalt, digitVal?_digitChar _ h1, digitVal?_digitChar _ h2]
  have hc : s.cost / 10 * 10 + s.cost % 10 = s.cost := by omega
  rw [hc]
  rw [if_pos ⟨s.costLo, s.costHi, by simp [s.charsLen]⟩]
  rw [← s.charsLen, List.take_left]

theorem bcryptHashpw_gensalt (pw : List Nat) (s : BcryptSalt) (extra : List Char) :
    bcryptHashpw pw (encodeSaltRaw s.cost s.chars ++ extra) =
      Except.ok (encodeSaltRaw s.cost s.chars ++
        encodeHash31 (bcryptMixModel (pw.take 72) s.cost s.chars)) := by
  simp only [bcryptHashpw, parseSalt_encode]

theorem hash_password_eq (p : String) (s : BcryptSalt) :
    hash_password p s = String.mk (encodeSaltRaw s.cost s.chars ++
      encodeHash31 (bcryptMixModel ((prepare_password p).take 72) s.cost s.chars)) := by
  have h := bcryptHashpw_gensalt (prepare_password p) s []
  rw [List.append_nil] at h
  simp only [hash_password, h]

/-- Claim C2: for every password string p and every gensalt output,
hashing p and then verifying p against the produced stored representation
succeeds (returns true, raising no error), and the prepare step always
produces exactly 64 bytes, below bcrypt's 72-byte input limit, so passwords
of any length (e.g. beyond 200 characters) go through unchanged. -/
theorem hash_verify_roundtrip (p : String) (salt : BcryptSalt) :
    verify_password p (hash_password p salt) = Except.ok true ∧
    (prepare_password p).length = 64 := by
  constructor
  · rw [hash_password_eq]
    show bcryptCheckpw (prepare_password p) _ = Except.ok true
    rw [show (String.mk (encodeSaltRaw salt.cost salt.chars ++
      encodeHash31 (bcryptMixModel ((prepare_password p).take 72) salt.cost salt.chars))).data =
      encodeSaltRaw salt.cost salt.chars ++
      encodeHash31 (bcryptMixModel ((prepare_password p).take 72) salt.cost salt.chars) from rfl]
    rw [bcryptCheckpw, bcryptHashpw_gensalt]
    simp
  · simp [prepare_password, sha256HexModel]

/-- Claim C1: if `ActivateAccount` (the `/verify/{token}` handler) is called
with a token that matches a pending record, the handler reports success, the
matching record becomes active with its activation token cleared in the same
update, no record afterwards carries the token, and a second call with the
same token renders the invalid-token page and changes nothing. -/
theorem activation_token_single_use (token : String) (db : List UserRec)
    (h : ∃ r ∈ db, r.email_token = some token) :
    (verify_account token db).1 = accountActivatedPage ∧
    (∀ r ∈ db, r.email_token = some token →
      { r with is_active := 1, email_token := none } ∈ (verify_account token db).2) ∧
    (∀ r ∈ (verify_account token db).2, r.email_token ≠ some token) ∧
    verify_account token (verify_account token db).2 =
      (invalidTokenPage, (verify_account token db).2) := by
  have hfind : (db.find? (fun r => r.email_token == some token)).isSome := by
    rw [List.find?_isSome]
    obtain ⟨r, hr, he⟩ := h
    exact ⟨r, hr, by simp [he]⟩
  obtain ⟨u, hu⟩ := Option.isSome_iff_exists.mp hfind
  have hmain : verify_account token db =
      (accountActivatedPage,
        db.map (fun r => if r.email_token == some token then
          { r with is_active := 1, email_token := none } else r)) := by
    simp only [verify_account, hu]
  have hclear : ∀ r ∈ (verify_account token db).2, r.email_token ≠ some token := by
    rw [hmain]
    intro r2 hr2
    obtain ⟨r, hr, rfl⟩ := List.mem_map.mp hr2
    by_cases h' : r.email_token = some token
    · simp [h']
    · simp [h']
  refine ⟨by rw [hmain], ?_, hclear, ?_⟩
  · intro r hr he
    rw [hmain]
    exact List.mem_map.mpr ⟨r, hr, by simp [he]⟩
  · have hnone : ((verify_account token db).2.find?
        (fun r => r.email_token == some token)) = none := by
      rw [List.find?_eq_none]
      intro x hx
      simpa using hclear x hx
    generalize hg : (verify_account token db).2 = db2 at hnone ⊢
    simp only [verify_account, hnone]

def wdbC1 : List UserRec :=
  [{ userId := 1, username := "alice", email := "a@x.com", password := "h",
     type := 1, email_token := some "T", is_active := 0, reset_token := none }]

/-- Witness for C1 at a concrete one-row table holding activation token
`"T"`: the first call succeeds and the second call with the same token is
rejected without mutation. -/
theorem activation_token_single_use_witness :
    (verify_account "T" wdbC1).1 = accountActivatedPage ∧
    verify_account "T" (verify_account "T" wdbC1).2 =
      (invalidTokenPage, (verify_account "T" wdbC1).2) :=
  ⟨(activation_token_single_use "T" wdbC1 (by decide)).1,
   (activation_token_single_use "T" wdbC1 (by decide)).2.2.2⟩

/-- Claim C3 counterexample: `verify_password` applied to a stored value
that is not a valid encoded bcrypt hash propagates bcrypt's `ValueError`
(`Except.error`) instead of returning false, refuting "never raises an
error or crashes the caller". -/
theorem verify_malformed_raises : verify_password "a" "garbage" = Except.error () := rfl

/-- Claim C3 (amended): `verify_password p s` raises exactly when `s` fails
bcrypt's salt parse (structurally malformed stored value); on any parseable
`s` it returns a boolean, which is true exactly when the recomputed hash
equals `s` — so every mismatch yields false, never an error. -/
theorem verify_false_on_mismatch (p s : String) :
    (verify_password p s = Except.error () ↔ parseSalt s.data = none) ∧
    (verify_password p s = Except.ok true ↔
      bcryptHashpw (prepare_password p) s.data = Except.ok s.data) := by
  cases hp : parseSalt s.data with
  | none =>
    simp [verify_password, bcryptCheckpw, bcryptHashpw, hp]
  | some v =>
    simp only [verify_password, bcryptCheckpw, bcryptHashpw, hp]
    constructor
    · simp
    · constructor
      · intro h
        rcases h' : (if (encodeSaltRaw v.1 v.2 ++
            encodeHash31 (bcryptMixModel ((prepare_password p).take 72) v.1 v.2)) = s.data
            then true else false) with _ | _
        · rw [h'] at h; exact absurd h (by simp)
        · split at h' <;> simp_all
      · intro h
        rw [Except.ok.injEq] at h
        simp [h]

/-- Claim C4: `RequestPasswordReset` renders the identical success page
whether or not the email belongs to an existing user; when it does not, no
row is touched and no mail task is enqueued; when it does, the fresh reset
token is persisted on the matching rows and the reset e-mail is enqueued. -/
theorem reset_request_uniform (e1 e2 t1 t2 : String)
    (db : List UserRec) (u : UserRec)
    (hmiss : db.find? (fun r => r.email == e1) = none)
    (hreal : db.find? (fun r => r.email == e2) = some u) :
    (forgot_password_submit e1 t1 db).response =
      (forgot_password_submit e2 t2 db).response ∧
    (forgot_password_submit e1 t1 db).db = db ∧
    (forgot_password_submit e1 t1 db).mail = none ∧
    (forgot_password_submit e2 t2 db).db =
      db.map (fun r => if r.email == e2 then { r with reset_token := some t2 } else r) ∧
    (forgot_password_submit e2 t2 db).mail = some (e2, u.username, t2) := by
  simp [forgot_password_submit, hmiss, hreal]

def wdbC4 : List UserRec :=
  [{ userId := 1, username := "bob", email := "real@x.com", password := "h",
     type := 1, email_token := none, is_active := 1, reset_token := none }]

/-- Witness for C4: a one-row table owning `real@x.com`; requesting a reset
for `missing@x.com` and for `real@x.com` renders the same page, the former
without mutation or mail, the latter enqueueing the mail task. -/
theorem reset_request_uniform_witness :
    (forgot_password_submit "missing@x.com" "t1" wdbC4).response =
      (forgot_password_submit "real@x.com" "t2" wdbC4).response ∧
    (forgot_password_submit "missing@x.com" "t1" wdbC4).db = wdbC4 ∧
    (forgot_password_submit "missing@x.com" "t1" wdbC4).mail = none ∧
    (forgot_password_submit "real@x.com" "t2" wdbC4).mail =
      some ("real@x.com", "bob", "t2") :=
  ⟨(reset_request_uniform "missing@x.com" "real@x.com" "t1" "t2" wdbC4
      (wdbC4.get ⟨0, by decide⟩) (by decide) (by decide)).1,
   (reset_request_uniform "missing@x.com" "real@x.com" "t1" "t2" wdbC4
      (wdbC4.get ⟨0, by decide⟩) (by decide) (by decide)).2.1,
   (reset_request_uniform "missing@x.com" "real@x.com" "t1" "t2" wdbC4
      (wdbC4.get ⟨0, by decide⟩) (by decide) (by decide)).2.2.1,
   (reset_request_uniform "missing@x.com" "real@x.com" "t1" "t2" wdbC4
      (wdbC4.get ⟨0, by decide⟩) (by decide) (by decide)).2.2.2.2⟩

/-- Claim C5: login with an unknown username and login with a known username
but a password failing verification return the very same
invalid-credentials result. -/
theorem login_invalid_credentials_uniform (u1 p1 u2 p2 : String)
    (db : List UserRec) (user : UserRec)
    (h1 : db.find? (fun r => r.username == u1) = none)
    (h2 : db.find? (fun r => r.username == u2) = some user)
    (h3 : verify_password p2 user.password = Except.ok false) :
    login_submit u1 p1 db = Except.ok (LoginAction.page invalidCredentialsPage) ∧
    login_submit u2 p2 db = Except.ok (LoginAction.page invalidCredentialsPage) := by
  constructor
  · simp only [login_submit, h1]
  · simp only [login_submit, h2, h3]

def wSalt : BcryptSalt :=
  ⟨12, "abcdefghijklmnopqrstuv".data, by omega, by omega, by decide⟩

def wuC5 : UserRec :=
  { userId := 1, username := "bob", email := "b@x.com",
    password := hash_password "pw" wSalt, type := 1,
    email_token := none, is_active := 1, reset_token := none }

set_option maxRecDepth 400000 in
/-- Witness for C5: a table holding only `bob` with the stored hash of
`"pw"`; logging in as the unknown `nobody` and as `bob` with the wrong
password both yield the invalid-credentials page. -/
theorem login_invalid_credentials_uniform_witness :
    login_submit "nobody" "pw" [wuC5] =
      Except.ok (LoginAction.page invalidCredentialsPage) ∧
    login_submit "bob" "wrong" [wuC5] =
      Except.ok (LoginAction.page invalidCredentialsPage) :=
  login_invalid_credentials_uniform "nobody" "pw" "bob" "wrong" [wuC5] wuC5
    (by decide) (by decide) (by decide)

/-- Claim C6: for a pending record, login with the correct password returns
the distinct account-not-active page (password checked first); with a
password failing verification it returns invalid credentials, and the two
pages differ. -/
theorem login_pending_account_not_active (username password : String)
    (db : List UserRec) (user : UserRec)
    (h1 : db.find? (fun r => r.username == username) = some user)
    (h2 : user.is_active = 0) :
    (verify_password password user.password = Except.ok true →
      login_submit username password db =
        Except.ok (LoginAction.page accountNotActivePage)) ∧
    (verify_password password user.password = Except.ok false →
      login_submit username password db =
        Except.ok (LoginAction.page invalidCredentialsPage)) ∧
    accountNotActivePage ≠ invalidCredentialsPage := by
  refine ⟨fun hv => ?_, fun hv => ?_, by decide⟩
  · simp only [login_submit, h1, hv, h2]
    rfl
  · simp only [login_submit, h1, hv]

def wuC6 : UserRec :=
  { userId := 1, username := "carol", email := "c@x.com",
    password := hash_password "pw" wSalt, type := 1,
    email_token := some "T", is_active := 0, reset_token := none }

set_option maxRecDepth 400000 in
/-- Witness for C6: `carol` is pending; logging in with her correct password
gives the account-not-active page. -/
theorem login_pending_account_not_active_witness :
    login_submit "carol" "pw" [wuC6] =
      Except.ok (LoginAction.page accountNotActivePage) :=
  (login_pending_account_not_active "carol" "pw" [wuC6] wuC6
    (by decide) (by decide)).1 (by decide)

/-- Claim C7: `CompletePasswordReset` with a token matching no row renders
the invalid-token page and leaves every row unchanged; with a matching token
it rewrites the matching rows, replacing the stored password secret with the
hash of the new password and clearing the reset token in the same update. -/
theorem complete_reset_invalid_or_update (token newpw : String)
    (salt : BcryptSalt) (db : List UserRec) :
    (db.find? (fun r => r.reset_token == some token) = none →
      reset_password_submit token newpw salt db = (invalidTokenPage, db)) ∧
    ((∃ r ∈ db, r.reset_token = some token) →
      (reset_password_submit token newpw salt db).1 = passwordUpdatedPage ∧
      (reset_password_submit token newpw salt db).2 =
        db.map (fun r => if r.reset_token == some token then
          { r with password := hash_password newpw salt, reset_token := none }
          else r) ∧
      ∀ r ∈ db, r.reset_token = some token →
        { r with password := hash_password newpw salt, reset_token := none } ∈
          (reset_password_submit token newpw salt db).2) := by
  constructor
  · intro hnone
    simp only [reset_password_submit, hnone]
  · intro h
    have hfind : (db.find? (fun r => r.reset_token == some token)).isSome := by
      rw [List.find?_isSome]
      obtain ⟨r, hr, he⟩ := h
      exact ⟨r, hr, by simp [he]⟩
    obtain ⟨u, hu⟩ := Option.isSome_iff_exists.mp hfind
    have hmain : reset_password_submit token newpw salt db =
        (passwordUpdatedPage,
          db.map (fun r => if r.reset_token == some token then
            { r with password := hash_password newpw salt, reset_token := none }
            else r)) := by
      simp only [reset_password_submit, hu]
    refine ⟨by rw [hmain], by rw [hmain], ?_⟩
    intro r hr he
    rw [hmain]
    exact List.mem_map.mpr ⟨r, hr, by simp [he]⟩

def wdbC7 : List UserRec :=
  [{ userId := 1, username := "dan", email := "d@x.com", password := "h",
     type := 1, email_token := none, is_active := 1, reset_token := some "R" }]

/-- Witness for C7: against a one-row table whose reset token is `"R"`, a
bogus token changes nothing and is rejected, while `"R"` renders the
password-updated page. -/
theorem complete_reset_invalid_or_update_witness :
    reset_password_submit "bogus" "np" wSalt wdbC7 = (invalidTokenPage, wdbC7) ∧
    (reset_password_submit "R" "np" wSalt wdbC7).1 = passwordUpdatedPage :=
  ⟨(complete_reset_invalid_or_update "bogus" "np" wSalt wdbC7).1 (by decide),
   ((complete_reset_invalid_or_update "R" "np" wSalt wdbC7).2 (by decide)).1⟩

/-- Claim C8: `Register` returns the conflict page and neither inserts nor
alters anything when the username or the email is already taken; otherwise
it appends exactly one row, pending (`is_active = 0`) with the activation
token set, and enqueues the activation e-mail. -/
theorem register_conflict_or_create (username email password token : String)
    (salt : BcryptSalt) (newId : Nat) (db : List UserRec) :
    ((∃ r ∈ db, r.username = username ∨ r.email = email) →
      register_submit username email password token salt newId db =
        { response := registerConflictPage, db := db, mail := none }) ∧
    ((∀ r ∈ db, r.username ≠ username ∧ r.email ≠ email) →
      register_submit username email password token salt newId db =
        { response := registrationCompletePage,
          db := db ++ [{ userId := newId, username := username, email := email,
                         password := hash_password password salt, type := 1,
                         email_token := some token, is_active := 0,
                         reset_token := none }],
          mail := some (email, username, token) }) := by
  constructor
  · intro h
    have hfind : (db.find? (fun r => r.username == username || r.email == email)).isSome := by
      rw [List.find?_isSome]
      obtain ⟨r, hr, he⟩ := h
      refine ⟨r, hr, ?_⟩
      rcases he with he | he <;> simp [he]
    obtain ⟨u, hu⟩ := Option.isSome_iff_exists.mp hfind
    simp only [register_submit, hu]
  · intro h
    have hfind : db.find? (fun r => r.username == username || r.email == email) = none := by
      rw [List.find?_eq_none]
      intro x hx
      have := h x hx
      simp [this.1, this.2]
    simp only [register_submit, hfind]

def wdbC8 : List UserRec :=
  [{ userId := 1, username := "eve", email := "e@x.com", password := "h",
     type := 1, email_token := none, is_active := 1, reset_token := none }]

set_option maxRecDepth 400000 in
/-- Witness for C8: registering a second user with the already-taken email
`e@x.com` yields the conflict page with the table untouched; registering a
fresh pair appends the pending row and enqueues the activation mail. -/
theorem register_conflict_or_create_witness :
    register_submit "eve2" "e@x.com" "pw" "T" wSalt 2 wdbC8 =
      { response := registerConflictPage, db := wdbC8, mail := none } ∧
    register_submit "frank" "f@x.com" "pw" "T" wSalt 2 wdbC8 =
      { response := registrationCompletePage,
        db := wdbC8 ++ [{ userId := 2, username := "frank", email := "f@x.com",
                          password := hash_password "pw" wSalt, type := 1,
                          email_token := some "T", is_active := 0,
                          reset_token := none }],
        mail := some ("f@x.com", "frank", "T") } :=
  ⟨(register_conflict_or_create "eve2" "e@x.com" "pw" "T" wSalt 2 wdbC8).1
      (by decide),
   (register_conflict_or_create "frank" "f@x.com" "pw" "T" wSalt 2 wdbC8).2
      (by decide)⟩

/-- Claim C9 counterexample: with the identity cookie present but empty and
a non-admin role marker, the guard raises the not-authenticated redirect,
not the forbidden error the claim requires for every present identity value;
likewise a present-but-empty identity with the admin marker does not pass. -/
theorem session_guard_empty_cookie_counterexample :
    get_admin_user (some "") (some "1") = AuthResult.notAuthenticated ∧
    get_admin_user (some "") (some "1") ≠ AuthResult.forbidden ∧
    get_admin_user (some "") (some "0") = AuthResult.notAuthenticated := by
  decide

/-- Claim C9 (amended): an absent or empty identity cookie (both falsy in
Python) yields the not-authenticated redirect; a non-empty identity with a
role marker other than `"0"` yields the forbidden error on admin-gated
operations; a non-empty identity with role marker `"0"` passes both
guards. -/
theorem session_guard_amended (s t : Option String) :
    (s = none ∨ s = some "" →
      get_current_user s = AuthResult.notAuthenticated ∧
      get_admin_user s t = AuthResult.notAuthenticated) ∧
    (∀ v, s = some v → v ≠ "" →
      get_current_user s = AuthResult.ok v ∧
      (t ≠ some "0" → get_admin_user s t = AuthResult.forbidden) ∧
      (t = some "0" → get_admin_user s t = AuthResult.ok v)) := by
  constructor
  · rintro (rfl | rfl) <;> exact ⟨rfl, rfl⟩
  · rintro v rfl hv
    have hcur : get_current_user (some v) = AuthResult.ok v := by
      simp [get_current_user, hv]
    refine ⟨hcur, fun ht => ?_, fun ht => ?_⟩
    · simp only [get_admin_user, hcur]
      have hb : (t == some "0") = false := by
        simpa using ht
      rw [hb]
      rfl
    · simp [get_admin_user, hcur, ht]

/-- Witness for the amended C9: a missing cookie redirects to login, a
logged-in non-admin is forbidden from admin-gated routes, and an admin
passes. -/
theorem session_guard_amended_witness :
    get_admin_user none (some "0") = AuthResult.notAuthenticated ∧
    get_admin_user (some "alice") (some "1") = AuthResult.forbidden ∧
    get_admin_user (some "alice") (some "0") = AuthResult.ok "alice" :=
  ⟨((session_guard_amended none (some "0")).1 (Or.inl rfl)).2,
   ((session_guard_amended (some "alice") (some "1")).2 "alice" rfl
      (by decide)).2.1 (by decide),
   ((session_guard_amended (some "alice") (some "0")).2 "alice" rfl
      (by decide)).2.2 rfl⟩

/-- The table after a password-reset request for an existing email: every
matching row carries the fresh token. -/
theorem forgot_db_eq (email t : String) (db : List UserRec)
    (h : ∃ r ∈ db, r.email = email) :
    (forgot_password_submit email t db).db =
      db.map (fun r => if r.email == email then { r with reset_token := some t }
        else r) := by
  have hfind : (db.find? (fun r => r.email == email)).isSome := by
    rw [List.find?_isSome]
    obtain ⟨r, hr, he⟩ := h
    exact ⟨r, hr, by simp [he]⟩
  obtain ⟨u, hu⟩ := Option.isSome_iff_exists.mp hfind
  simp only [forgot_password_submit, hu]

/-- Claim C10: requesting a second password reset for the same email
unconditionally overwrites the stored reset token, so the first token — if
fresh, i.e. not coincidentally some other row's token — matches no row
afterwards and completing a reset with it is rejected without mutation. -/
theorem reset_token_overwritten (email t1 t2 np : String) (salt : BcryptSalt)
    (db : List UserRec)
    (hmail : ∃ r ∈ db, r.email = email)
    (hfresh : ∀ r ∈ db, r.reset_token ≠ some t1)
    (hne : t1 ≠ t2) :
    (∀ r ∈ (forgot_password_submit email t2
        (forgot_password_submit email t1 db).db).db, r.reset_token ≠ some t1) ∧
    reset_password_submit t1 np salt
        (forgot_password_submit email t2
          (forgot_password_submit email t1 db).db).db =
      (invalidTokenPage,
        (forgot_password_submit email t2
          (forgot_password_submit email t1 db).db).db) := by
  have h1 := forgot_db_eq email t1 db hmail
  have hmail1 : ∃ r ∈ (forgot_password_submit email t1 db).db, r.email = email := by
    obtain ⟨r, hr, he⟩ := hmail
    rw [h1]
    exact ⟨{ r with reset_token := some t1 },
      List.mem_map.mpr ⟨r, hr, by simp [he]⟩, he⟩
  have h2 := forgot_db_eq email t2 _ hmail1
  have hclear : ∀ r ∈ (forgot_password_submit email t2
      (forgot_password_submit email t1 db).db).db, r.reset_token ≠ some t1 := by
    rw [h2, h1]
    intro r2 hr2
    obtain ⟨r1, hr1, rfl⟩ := List.mem_map.mp hr2
    obtain ⟨r0, hr0, rfl⟩ := List.mem_map.mp hr1
    by_cases hc : r0.email = email
    · simp only [beq_iff_eq]
      rw [if_pos hc]
      rw [if_pos (show ({ r0 with reset_token := some t1 } : UserRec).email = email from hc)]
      simp
      exact fun contra => hne contra.symm
    · simp [hc]
      exact hfresh r0 hr0
  refine ⟨hclear, ?_⟩
  have hnone : ((forgot_password_submit email t2
      (forgot_password_submit email t1 db).db).db.find?
        (fun r => r.reset_token == some t1)) = none := by
    rw [List.find?_eq_none]
    intro x hx
    simpa using hclear x hx
  generalize hg : (forgot_password_submit email t2
    (forgot_password_submit email t1 db).db).db = db2 at hnone ⊢
  simp only [reset_password_submit, hnone]

def wdbC10 : List UserRec :=
  [{ userId := 1, username := "gina", email := "g@x.com", password := "h",
     type := 1, email_token := none, is_active := 1, reset_token := none }]

/-- Witness for C10: after two reset requests for `g@x.com` issuing `t1`
then `t2`, completing a reset with the superseded `t1` is rejected and
mutates nothing. -/
theorem reset_token_overwritten_witness :
    reset_password_submit "t1" "np" wSalt
        (forgot_password_submit "g@x.com" "t2"
          (forgot_password_submit "g@x.com" "t1" wdbC10).db).db =
      (invalidTokenPage,
        (forgot_password_submit "g@x.com" "t2"
          (forgot_password_submit "g@x.com" "t1" wdbC10).db).db) :=
  (reset_token_overwritten "g@x.com" "t1" "t2" "np" wSalt wdbC10
    (by decide) (by decide) (by decide)).2
